import Mathlib

/-!
Verification of the complement-crypto deployment orchestrator and
fault-injection harness against its natural-language specification.

The Go sources are shallowly embedded: straight-line effectful functions
become Lean functions producing explicit traces of actions, the package-level
mutable deployment singleton becomes explicit state passing, and failure-prone
external calls (container termination, log capture) are parametrised by an
environment recording which of them fail.
-/

/-! ## Deployment singleton (tests/main_test.go)

The package-level globals `ssDeployment` (a nil-able pointer, modelled as
`Option Nat` where the `Nat` identifies a concrete deployment instance) and
the provisioning counter are gathered into a state record.  `Deploy` holds
`ssMutex` for its whole body, so concurrent calls are serialised and the
sequential state-passing function below is the faithful semantics. -/

structure DeployState where
  ssDeployment : Option Nat
  nextId : Nat
deriving DecidableEq, Repr

structure DeployResult where
  dep : Nat
  state : DeployState
  provisioned : Bool
deriving DecidableEq, Repr

/-- `Deploy` from tests/main_test.go: under the mutex, if `ssDeployment` is
non-nil return it unchanged; otherwise run `deploy.RunNewDeployment` (here:
mint a fresh instance identifier) and cache it. -/
def Deploy (s : DeployState) : DeployResult :=
  match s.ssDeployment with
  | some d => ⟨d, s, false⟩
  | none => ⟨s.nextId, ⟨some s.nextId, s.nextId + 1⟩, true⟩

/-- The state after `n` further calls to `Deploy`. -/
def deployN : Nat → DeployState → DeployState
  | 0, s => s
  | n + 1, s => deployN n (Deploy s).state

theorem deploy_cached_fixed (s : DeployState) (d : Nat)
    (h : s.ssDeployment = some d) : Deploy s = ⟨d, s, false⟩ := by
  simp [Deploy, h]

theorem deployN_cached_fixed (n : Nat) (s : DeployState) (d : Nat)
    (h : s.ssDeployment = some d) : (deployN n s).ssDeployment = some d := by
  induction n generalizing s with
  | zero => simpa [deployN]
  | succ n ih =>
    have hs : Deploy s = ⟨d, s, false⟩ := deploy_cached_fixed s d h
    simp [deployN, hs, ih s h]

/-- C1: the first call to `Deploy` provisions and caches a deployment; every
subsequent call returns that same cached instance without provisioning, and
once the cached deployment is non-nil it is never replaced by any further
sequence of `Deploy` calls. -/
theorem deploy_singleton_cached (s : DeployState) :
    (∀ d, s.ssDeployment = some d →
      Deploy s = ⟨d, s, false⟩ ∧ ∀ n, (deployN n s).ssDeployment = some d) ∧
    (s.ssDeployment = none →
      (Deploy s).provisioned = true ∧
      (Deploy s).state.ssDeployment = some (Deploy s).dep ∧
      ∀ n, (deployN n (Deploy s).state).ssDeployment = some (Deploy s).dep ∧
        Deploy (deployN n (Deploy s).state) =
          ⟨(Deploy s).dep, deployN n (Deploy s).state, false⟩) := by
  constructor
  · intro d h
    exact ⟨deploy_cached_fixed s d h, fun n => deployN_cached_fixed n s d h⟩
  · intro h
    have h1 : (Deploy s).provisioned = true := by simp [Deploy, h]
    have h2 : (Deploy s).state.ssDeployment = some (Deploy s).dep := by
      simp [Deploy, h]
    refine ⟨h1, h2, fun n => ?_⟩
    have h3 := deployN_cached_fixed n (Deploy s).state (Deploy s).dep h2
    exact ⟨h3, deploy_cached_fixed _ _ h3⟩

/-- Witness for C1 at concrete states: a cached deployment (id 7) survives five
further calls, and a fresh state provisions exactly once. -/
theorem deploy_singleton_cached_witness :
    Deploy ⟨some 7, 8⟩ = ⟨7, ⟨some 7, 8⟩, false⟩ ∧
    (deployN 5 ⟨some 7, 8⟩).ssDeployment = some 7 ∧
    (Deploy ⟨none, 0⟩).provisioned = true :=
  ⟨((deploy_singleton_cached ⟨some 7, 8⟩).1 7 rfl).1,
   ((deploy_singleton_cached ⟨some 7, 8⟩).1 7 rfl).2 5,
   ((deploy_singleton_cached ⟨none, 0⟩).2 rfl).1⟩

/-! ## Rule match budget (reverse proxy rule engine)

Modelled from the spec: the reverse proxy's rule engine (the process serving
the administrative channel, which interprets the `statuscode` rule with its
`count` match budget) is not among the sources under src/; only its callers
are (e.g. tests/to_device_test.go pushes a rule with `count: 3`).  Per the
spec, the budget is an optional integer, absent meaning unlimited; a matching
request atomically consumes one budget unit (compare-and-decrement) and
receives the injected action while budget remains; at zero the rule stops
applying and matching requests pass through to the upstream server.  Because
each decrement is atomic, every concurrent schedule of matching requests is
observationally some sequential order of atomic steps, so the sequential
fold below covers all interleavings. -/

/-- One matching request against the rule: returns whether the injected
action fires and the remaining budget (`none` = unlimited). -/
def ruleStep : Option Nat → Bool × Option Nat
  | none => (true, none)
  | some 0 => (false, some 0)
  | some (n + 1) => (true, some n)

/-- Outcomes (action fired?) of `k` consecutive matching requests. -/
def runMatches : Option Nat → Nat → List Bool
  | _, 0 => []
  | b, k + 1 => (ruleStep b).1 :: runMatches (ruleStep b).2 k

theorem runMatches_get_lt (i : Nat) : ∀ N k : Nat, i < N → i < k →
    (runMatches (some N) k).get? i = some true := by
  induction i with
  | zero =>
    intro N k hN hk
    match N, k with
    | N + 1, k + 1 => simp [runMatches, ruleStep]
  | succ i ih =>
    intro N k hN hk
    match N, k with
    | N + 1, k + 1 =>
      have := ih N k (Nat.lt_of_succ_lt_succ hN) (Nat.lt_of_succ_lt_succ hk)
      simpa [runMatches, ruleStep]

theorem runMatches_get_budget (N : Nat) : ∀ k : Nat, N < k →
    (runMatches (some N) k).get? N = some false := by
  induction N with
  | zero =>
    intro k hk
    match k with
    | k + 1 => simp [runMatches, ruleStep]
  | succ N ih =>
    intro k hk
    match k with
    | k + 1 =>
      have := ih k (Nat.lt_of_succ_lt_succ hk)
      simpa [runMatches, ruleStep]

theorem runMatches_count (k : Nat) : ∀ N : Nat,
    (runMatches (some N) k).count true = min N k := by
  induction k with
  | zero => intro N; simp [runMatches]
  | succ k ih =>
    intro N
    match N with
    | 0 =>
      have h0 : ∀ j, runMatches (some 0) j = List.replicate j false := by
        intro j
        induction j with
        | zero => simp [runMatches]
        | succ j ihj => simp [runMatches, ruleStep, ihj, List.replicate_succ]
      simp [h0, List.count_replicate]
    | N + 1 =>
      simp [runMatches, ruleStep, List.count_cons, ih N, Nat.succ_min_succ]

/-- C2: for a rule with match budget N ≥ 1, exactly N matching requests
receive the injected action, the (N+1)-th matching request passes through
unmodified, the budget strictly decrements per matching request, and no
schedule of matching requests ever yields more than N matches.  (Reason:
spec-modelled — the rule engine itself is not under src/.) -/
theorem rule_budget_exact (N k : Nat) (hN : 1 ≤ N) (hk : N + 1 ≤ k) :
    (∀ i, i < N → (runMatches (some N) k).get? i = some true) ∧
    (runMatches (some N) k).get? N = some false ∧
    (runMatches (some N) k).count true = N ∧
    (∀ j, (runMatches (some N) j).count true ≤ N) := by
  have hNk : N < k := hk
  refine ⟨fun i hi => runMatches_get_lt i N k hi (Nat.lt_trans hi hNk),
    runMatches_get_budget N k hNk, ?_, fun j => ?_⟩
  · rw [runMatches_count k N]
    exact Nat.min_eq_left (Nat.le_of_lt hNk)
  · rw [runMatches_count j N]
    exact Nat.min_le_left N j

/-- Witness for C2 with budget 3 and 4 matching requests, as in
TestToDeviceMessagesArentLostWhenKeysQueryFails: the first three requests are
intercepted, the fourth passes through, three matches in total. -/
theorem rule_budget_exact_witness :
    (runMatches (some 3) 4).get? 0 = some true ∧
    (runMatches (some 3) 4).get? 3 = some false ∧
    (runMatches (some 3) 4).count true = 3 :=
  ⟨(rule_budget_exact 3 4 (by decide) (by decide)).1 0 (by decide),
   (rule_budget_exact 3 4 (by decide) (by decide)).2.1,
   (rule_budget_exact 3 4 (by decide) (by decide)).2.2.1⟩

/-! ## Deployment lifecycle (deploy package, SlidingSyncDeployment)

`Teardown` and `RunNewDeployment` are straight-line effectful Go functions;
they are embedded as functions producing an explicit trace of the externally
visible actions they perform, in order.  Failure-prone external calls
(container.Terminate, writeContainerLogs) are parametrised by an environment
saying which of them fail.  `log.Fatalf` aborts the process, so the trace
stops there and the abort is recorded in the second component. -/

/-- Which containers of a `SlidingSyncDeployment` are non-nil. -/
structure SSDeployment where
  slidingSync : Bool
  postgres : Bool
  reverseProxy : Bool
  tcpdump : Bool
deriving DecidableEq, Repr

/-- Which failure-prone external calls fail during `Teardown`. -/
structure TeardownEnv where
  writeSlidingSyncLogsFails : Bool
  slidingSyncTerminateFails : Bool
  postgresTerminateFails : Bool
  reverseProxyTerminateFails : Bool
deriving DecidableEq, Repr

/-- Externally visible actions of `Teardown`. -/
inductive TAction
  | writeLogs (filename : String)
  | logPrintf (msg : String)
  | terminate (name : String)
  | logFatal (msg : String)
  | controllerTerminate
  | signalInterrupt
  | waitProcess
deriving DecidableEq, Repr

/-- `Teardown(writeLogs)` from the deploy package, statement by statement:
sliding sync (optionally write logs, `log.Printf` on log failure, then
Terminate with `log.Fatalf` on error), then postgres (Terminate,
`log.Fatalf` on error), then the reverse proxy (controller Terminate, then
container Terminate with `log.Fatalf` on error), then tcpdump (SIGINT and
wait).  Returns the executed trace and whether `log.Fatalf` aborted the
process. -/
def Teardown (d : SSDeployment) (env : TeardownEnv) (writeLogs : Bool) :
    List TAction × Bool :=
  let ssBlock : List TAction × Bool :=
    if d.slidingSync then
      let logActs : List TAction :=
        if writeLogs then
          if env.writeSlidingSyncLogsFails then
            [TAction.writeLogs "container-sliding-sync.log",
             TAction.logPrintf "failed to write sliding sync logs"]
          else [TAction.writeLogs "container-sliding-sync.log"]
        else []
      if env.slidingSyncTerminateFails then
        (logActs ++ [TAction.terminate "sliding sync",
                     TAction.logFatal "failed to stop sliding sync"], true)
      else (logActs ++ [TAction.terminate "sliding sync"], false)
    else ([], false)
  if ssBlock.2 then ssBlock else
  let pgBlock : List TAction × Bool :=
    if d.postgres then
      if env.postgresTerminateFails then
        ([TAction.terminate "postgres",
          TAction.logFatal "failed to stop postgres"], true)
      else ([TAction.terminate "postgres"], false)
    else ([], false)
  if pgBlock.2 then (ssBlock.1 ++ pgBlock.1, true) else
  let rpBlock : List TAction × Bool :=
    if d.reverseProxy then
      if env.reverseProxyTerminateFails then
        ([TAction.controllerTerminate, TAction.terminate "reverse proxy",
          TAction.logFatal "failed to stop reverse proxy"], true)
      else ([TAction.controllerTerminate, TAction.terminate "reverse proxy"], false)
    else ([], false)
  if rpBlock.2 then (ssBlock.1 ++ pgBlock.1 ++ rpBlock.1, true) else
  let tdBlock : List TAction :=
    if d.tcpdump then [TAction.signalInterrupt, TAction.waitProcess] else []
  (ssBlock.1 ++ pgBlock.1 ++ rpBlock.1 ++ tdBlock, false)

/-- Index of the first action satisfying `p`, if any. -/
def idxOfAction {α : Type} (trace : List α) (p : α → Bool) : Option Nat :=
  trace.findIdx? p

/-- Whether an action satisfying `p` occurs strictly before one satisfying
`q` in the trace (both must occur). -/
def beforeIn {α : Type} (trace : List α) (p q : α → Bool) : Bool :=
  match trace.findIdx? p, trace.findIdx? q with
  | some i, some j => decide (i < j)
  | _, _ => false

def isTerminate (name : String) : TAction → Bool
  | TAction.terminate n => n == name
  | _ => false

def isWriteLogs : TAction → Bool
  | TAction.writeLogs _ => true
  | _ => false

/-- The filenames passed to `writeContainerLogs`, in order. -/
def logWrites (trace : List TAction) : List String :=
  trace.filterMap fun a =>
    match a with
    | TAction.writeLogs f => some f
    | _ => none

/-- The full deployment: all containers present, tcpdump attached. -/
def allContainers : SSDeployment := ⟨true, true, true, true⟩

/-- The environment where every external call succeeds. -/
def noFailures : TeardownEnv := ⟨false, false, false, false⟩

/-- The environment where only the sliding sync Terminate call fails. -/
def ssTerminateFailsEnv : TeardownEnv := ⟨false, true, false, false⟩

/-- C3 counterexample: with every container present and only the sliding sync
Terminate call failing, `Teardown` aborts the process via `log.Fatalf`
(second component `true`) and postgres is never terminated — the failure is
raised, not merely logged, and it does block the remaining processes. -/
theorem teardown_fatal_counterexample :
    (Teardown allContainers ssTerminateFailsEnv false).2 = true ∧
    idxOfAction (Teardown allContainers ssTerminateFailsEnv false).1
      (isTerminate "postgres") = none := by
  decide

/-- C3 (amended): Teardown completes without aborting exactly when no
Terminate call fails; a log-capture failure alone is logged via `log.Printf`
and the sliding sync container is still terminated; but a failing Terminate
call aborts the process via `log.Fatalf` and the remaining containers are
not terminated. -/
theorem teardown_failure_handling (env : TeardownEnv) (w : Bool) :
    ((Teardown allContainers env w).2 = false ↔
      env.slidingSyncTerminateFails = false ∧
      env.postgresTerminateFails = false ∧
      env.reverseProxyTerminateFails = false) ∧
    (env.writeSlidingSyncLogsFails = true → w = true →
      TAction.logPrintf "failed to write sliding sync logs" ∈
        (Teardown allContainers env w).1 ∧
      idxOfAction (Teardown allContainers env w).1
        (isTerminate "sliding sync") ≠ none) ∧
    (env.slidingSyncTerminateFails = true →
      (Teardown allContainers env w).2 = true ∧
      idxOfAction (Teardown allContainers env w).1
        (isTerminate "postgres") = none) := by
  rcases env with ⟨a, b, c, d⟩
  cases a <;> cases b <;> cases c <;> cases d <;> cases w <;> decide

/-- Witness for C3 (amended): a log-capture failure alone is logged and does
not prevent termination of the sliding sync container. -/
theorem teardown_failure_handling_witness :
    TAction.logPrintf "failed to write sliding sync logs" ∈
      (Teardown allContainers ⟨true, false, false, false⟩ true).1 ∧
    idxOfAction (Teardown allContainers ⟨true, false, false, false⟩ true).1
      (isTerminate "sliding sync") ≠ none :=
  (teardown_failure_handling ⟨true, false, false, false⟩ true).2.1 rfl rfl

/-- C5 counterexample: in a full no-failure teardown the reverse proxy is NOT
stopped before the datastore — postgres is terminated strictly before the
reverse proxy, refuting the claimed order (sync proxy, then reverse proxy,
then datastore). -/
theorem teardown_order_counterexample :
    beforeIn (Teardown allContainers noFailures true).1
      (isTerminate "reverse proxy") (isTerminate "postgres") = false ∧
    beforeIn (Teardown allContainers noFailures true).1
      (isTerminate "postgres") (isTerminate "reverse proxy") = true := by
  decide

/-- C5 (amended): whenever no Terminate call fails, Teardown stops the
sliding sync proxy first, then the datastore (postgres), then the reverse
proxy — the exact reverse of the provisioning order reverse proxy →
datastore → sliding sync. -/
theorem teardown_stop_order (env : TeardownEnv) (w : Bool)
    (h1 : env.slidingSyncTerminateFails = false)
    (h2 : env.postgresTerminateFails = false)
    (h3 : env.reverseProxyTerminateFails = false) :
    beforeIn (Teardown allContainers env w).1
      (isTerminate "sliding sync") (isTerminate "postgres") = true ∧
    beforeIn (Teardown allContainers env w).1
      (isTerminate "postgres") (isTerminate "reverse proxy") = true := by
  rcases env with ⟨a, b, c, d⟩
  cases b <;> cases c <;> cases d <;> simp_all
  cases a <;> cases w <;> decide

/-- Witness for C5 (amended) at the all-success environment. -/
theorem teardown_stop_order_witness :
    beforeIn (Teardown allContainers noFailures false).1
      (isTerminate "sliding sync") (isTerminate "postgres") = true ∧
    beforeIn (Teardown allContainers noFailures false).1
      (isTerminate "postgres") (isTerminate "reverse proxy") = true :=
  teardown_stop_order noFailures false rfl rfl rfl

/-- C6 counterexample: in a full no-failure teardown with writeLogs = true,
exactly one log file is written (the sliding sync one) even though the
datastore and the reverse proxy are also owned and terminated — the captured
output of each owned process is NOT persisted. -/
theorem teardown_logs_counterexample :
    logWrites (Teardown allContainers noFailures true).1 =
      ["container-sliding-sync.log"] ∧
    idxOfAction (Teardown allContainers noFailures true).1
      (isTerminate "postgres") ≠ none ∧
    idxOfAction (Teardown allContainers noFailures true).1
      (isTerminate "reverse proxy") ≠ none := by
  decide

/-- C6 (amended): with writeLogs = true the captured output of the sliding
sync process (only) is persisted before that process is terminated, and a
failure to write it is non-fatal: it is logged, the sliding sync container is
still terminated, and teardown continues to the remaining processes. -/
theorem teardown_writelogs_best_effort (lf : Bool) :
    beforeIn (Teardown allContainers ⟨lf, false, false, false⟩ true).1
      isWriteLogs (isTerminate "sliding sync") = true ∧
    logWrites (Teardown allContainers ⟨lf, false, false, false⟩ true).1 =
      ["container-sliding-sync.log"] ∧
    (lf = true →
      TAction.logPrintf "failed to write sliding sync logs" ∈
        (Teardown allContainers ⟨lf, false, false, false⟩ true).1) ∧
    (Teardown allContainers ⟨lf, false, false, false⟩ true).2 = false ∧
    idxOfAction (Teardown allContainers ⟨lf, false, false, false⟩ true).1
      (isTerminate "postgres") ≠ none ∧
    idxOfAction (Teardown allContainers ⟨lf, false, false, false⟩ true).1
      (isTerminate "reverse proxy") ≠ none := by
  cases lf <;> decide

/-- Witness for C6 (amended) with a failing log write: the failure is logged
and the sliding sync container is still terminated. -/
theorem teardown_writelogs_best_effort_witness :
    TAction.logPrintf "failed to write sliding sync logs" ∈
      (Teardown allContainers ⟨true, false, false, false⟩ true).1 ∧
    (Teardown allContainers ⟨true, false, false, false⟩ true).2 = false :=
  ⟨(teardown_writelogs_best_effort true).2.2.1 rfl,
   (teardown_writelogs_best_effort true).2.2.2.1⟩

/-! ## Deployment provisioning (RunNewDeployment) -/

/-- A testcontainers readiness signal: wait for a specific log line, or for
a specific command to exit zero, polled at a fixed interval until the
strategy's startup deadline. -/
inductive Readiness
  | forLog (line : String)
  | forExecExitZero (cmd : List String) (pollIntervalSeconds : Nat)
deriving DecidableEq, Repr

/-- Externally visible provisioning steps of `RunNewDeployment`, in order.
A `provision` step starts a container with `Started: true` and blocks until
its readiness signal fires. -/
inductive PAction
  | deployNetwork (numServers : Nat)
  | controllerListen
  | provision (name : String) (ready : Readiness)
  | startTcpdump (args : List String)
deriving DecidableEq, Repr

/-- The tcpdump command line built in `RunNewDeployment`: the capture filter
varies with the mapped ports, the output file is fixed. -/
def tcpdumpArgs (filter : String) : List String :=
  ["-i", "any", "-s", "0", filter, "-w", "test.pcap"]

/-- `RunNewDeployment` from the deploy package, statement by statement:
`complement.Deploy(t, 2)` (homeserver network), controller Listen, the
reverse proxy container (ready on log "listening"), the postgres container
(ready when `pg_isready` exits zero, polled every second), the sliding sync
container (ready on log "listening on"), and optionally tcpdump. -/
def RunNewDeployment (shouldTCPDump : Bool) (filter : String) : List PAction :=
  [PAction.deployNetwork 2, PAction.controllerListen,
   PAction.provision "reverse proxy" (Readiness.forLog "listening"),
   PAction.provision "postgres" (Readiness.forExecExitZero ["pg_isready"] 1),
   PAction.provision "sliding sync" (Readiness.forLog "listening on")] ++
  (if shouldTCPDump then [PAction.startTcpdump (tcpdumpArgs filter)] else [])

def isProvision (name : String) : PAction → Bool
  | PAction.provision n _ => n == name
  | _ => false

/-- C4 counterexample: the datastore is NOT provisioned before the reverse
proxy — the reverse proxy container is started (and waited on) strictly
before the postgres container, refuting the claimed order network →
datastore → reverse proxy → sync-aggregation proxy. -/
theorem provisioning_order_counterexample :
    beforeIn (RunNewDeployment false "") (isProvision "postgres")
      (isProvision "reverse proxy") = false ∧
    beforeIn (RunNewDeployment false "") (isProvision "reverse proxy")
      (isProvision "postgres") = true := by
  decide

/-- C4 (amended): `RunNewDeployment` provisions the network first, then the
reverse proxy, then the datastore, then the sync-aggregation proxy, and each
provisioned process blocks on its readiness signal — a specific log line
("listening" for the reverse proxy, "listening on" for sliding sync) or a
specific command exiting zero (`pg_isready`, polled every second) — before
the function returns the deployment. -/
theorem provisioning_order_readiness (b : Bool) (filter : String) :
    (RunNewDeployment b filter).get? 0 = some (PAction.deployNetwork 2) ∧
    idxOfAction (RunNewDeployment b filter) (isProvision "reverse proxy") =
      some 2 ∧
    idxOfAction (RunNewDeployment b filter) (isProvision "postgres") = some 3 ∧
    idxOfAction (RunNewDeployment b filter) (isProvision "sliding sync") =
      some 4 ∧
    (RunNewDeployment b filter).get? 2 =
      some (PAction.provision "reverse proxy" (Readiness.forLog "listening")) ∧
    (RunNewDeployment b filter).get? 3 =
      some (PAction.provision "postgres"
        (Readiness.forExecExitZero ["pg_isready"] 1)) ∧
    (RunNewDeployment b filter).get? 4 =
      some (PAction.provision "sliding sync"
        (Readiness.forLog "listening on")) := by
  cases b <;> exact ⟨rfl, rfl, rfl, rfl, rfl, rfl, rfl⟩

/-- C8: the packet-capture side-process writes to the fixed output file
test.pcap whatever the capture filter is, is attached (when enabled) after
the provisioning steps, and during Teardown it is stopped by a SIGINT
followed by a wait for process exit, as the final two teardown actions. -/
theorem tcpdump_fixed_file_and_stop (filter : String) (env : TeardownEnv)
    (w : Bool)
    (h1 : env.slidingSyncTerminateFails = false)
    (h2 : env.postgresTerminateFails = false)
    (h3 : env.reverseProxyTerminateFails = false) :
    (tcpdumpArgs filter).get? 5 = some "-w" ∧
    (tcpdumpArgs filter).get? 6 = some "test.pcap" ∧
    (RunNewDeployment true filter).get? 5 =
      some (PAction.startTcpdump (tcpdumpArgs filter)) ∧
    (Teardown allContainers env w).1.reverse.get? 1 =
      some TAction.signalInterrupt ∧
    (Teardown allContainers env w).1.reverse.get? 0 =
      some TAction.waitProcess := by
  refine ⟨rfl, rfl, rfl, ?_, ?_⟩ <;>
    · rcases env with ⟨a, b, c, d⟩
      cases b <;> cases c <;> cases d <;> simp_all
      cases a <;> cases w <;> decide

/-- Witness for C8 at a concrete filter and the all-success environment. -/
theorem tcpdump_fixed_file_and_stop_witness :
    (tcpdumpArgs "tcp port 1").get? 6 = some "test.pcap" ∧
    (Teardown allContainers noFailures true).1.reverse.get? 0 =
      some TAction.waitProcess :=
  ⟨(tcpdump_fixed_file_and_stop "tcp port 1" noFailures true rfl rfl rfl).2.1,
   (tcpdump_fixed_file_and_stop "tcp port 1" noFailures true rfl rfl rfl).2.2.2.2⟩

/-! ## Synchronization Waiter (helpers.NewWaiter)

Modelled from the spec: the `Waiter` used throughout the tests comes from
the external complement helpers package, which is not among the sources
under src/; only its call sites are.  Per the spec a Waiter is a binary
completion flag: `Finish` marks completion and is idempotent (calls after
the first are no-ops), and `Wait(timeout)` reports failure to the caller if
`Finish` was never called by the timeout, success otherwise.  A run of the
Waiter is described by the list of instants at which `Finish` is invoked. -/

structure Waiter where
  finished : Bool
deriving DecidableEq, Repr

def NewWaiter : Waiter := ⟨false⟩

def Waiter.finish (_ : Waiter) : Waiter := ⟨true⟩

inductive WaitResult
  | success
  | failure (msg : String)
deriving DecidableEq, Repr

/-- `Wait(timeout, msg)` observed against the instants at which Finish was
invoked: success iff some Finish call happened by the timeout, otherwise the
failure message is reported to the caller (never blocking forever). -/
def waitOutcome (finishCalls : List Nat) (timeout : Nat) (msg : String) :
    WaitResult :=
  if finishCalls.any (fun t => decide (t ≤ timeout)) then WaitResult.success
  else WaitResult.failure msg

/-- C7: `Finish` is idempotent (a second call is a no-op on the state);
`Wait(timeout)` returns a failure outcome — not a hang — when `Finish` is
never called, or never called by the timeout; and once some `Finish` call
has happened by the timeout, `Wait` returns success no matter how many
further `Finish` calls follow.  (Reason: spec-modelled — the Waiter itself
is not under src/.) -/
theorem waiter_contract (w : Waiter) (calls extra : List Nat)
    (timeout t0 : Nat) (msg : String) :
    w.finish.finish = w.finish ∧
    waitOutcome [] timeout msg = WaitResult.failure msg ∧
    ((∀ t ∈ calls, timeout < t) →
      waitOutcome calls timeout msg = WaitResult.failure msg) ∧
    (t0 ∈ calls → t0 ≤ timeout →
      waitOutcome (calls ++ extra) timeout msg = WaitResult.success) := by
  refine ⟨rfl, rfl, fun h => ?_, fun hmem hle => ?_⟩
  · have hany : calls.any (fun t => decide (t ≤ timeout)) = false := by
      simp only [List.any_eq_false, decide_eq_true_eq]
      intro t ht
      exact Nat.not_le.mpr (h t ht)
    simp [waitOutcome, hany]
  · have hany : (calls ++ extra).any (fun t => decide (t ≤ timeout)) = true := by
      simp only [List.any_eq_true, decide_eq_true_eq]
      exact ⟨t0, List.mem_append_left extra hmem, hle⟩
    simp [waitOutcome, hany]

/-- Witness for C7: Finish at instant 5 with one later redundant Finish at 9
makes Wait with timeout 7 succeed; no Finish by timeout 3 reports failure. -/
theorem waiter_contract_witness :
    waitOutcome ([5] ++ [9]) 7 "did not see event" = WaitResult.success ∧
    waitOutcome [5] 3 "did not see event" =
      WaitResult.failure "did not see event" :=
  ⟨(waiter_contract ⟨false⟩ [5] [9] 7 5 "did not see event").2.2.2
     (by decide) (by decide),
   (waiter_contract ⟨false⟩ [5] [] 3 5 "did not see event").2.2.1
     (by decide)⟩

/-! ## CreateNewEncryptedRoom and its options (tests/main_test.go)

The Go request body is a generic map; the fields the code builds and the
options mutate are captured by a typed record with the same field names. -/

structure EncryptionContent where
  algorithm : String
  rotation_period_msgs : Option Int
deriving DecidableEq, Repr

structure StateEvent where
  eventType : String
  state_key : String
  content : EncryptionContent
deriving DecidableEq, Repr

structure CreateRoomBody where
  name : String
  preset : String
  invite : List String
  initial_state : List StateEvent
deriving DecidableEq, Repr

/-- The provided options (the methods on `EncRoomOptions`). -/
inductive EncRoomOption
  | presetPrivateChat
  | presetTrustedPrivateChat
  | presetPublicChat
  | invite (users : List String)
  | rotationPeriodMsgs (numMsgs : Int)
deriving DecidableEq, Repr

def setPreset (preset : String) (b : CreateRoomBody) : CreateRoomBody :=
  { b with preset := preset }

/-- Effect of one option on the request body.  `RotationPeriodMsgs` writes
`rotation_period_msgs` into `initial_state[0].content`; the index-0 access
requires a non-empty `initial_state`, which every body built by
`CreateNewEncryptedRoom` has. -/
def applyOption (b : CreateRoomBody) : EncRoomOption → CreateRoomBody
  | EncRoomOption.presetPrivateChat => setPreset "private_chat" b
  | EncRoomOption.presetTrustedPrivateChat => setPreset "trusted_private_chat" b
  | EncRoomOption.presetPublicChat => setPreset "public_chat" b
  | EncRoomOption.invite users => { b with invite := users }
  | EncRoomOption.rotationPeriodMsgs n =>
      match b.initial_state with
      | [] => b
      | ev :: rest =>
          { b with initial_state :=
              { ev with content :=
                  { ev.content with rotation_period_msgs := some n } } :: rest }

/-- The request body literal at the top of `CreateNewEncryptedRoom`. -/
def initialReqBody (testName : String) : CreateRoomBody :=
  { name := testName
    preset := "private_chat"
    invite := []
    initial_state :=
      [{ eventType := "m.room.encryption"
         state_key := ""
         content :=
           { algorithm := "m.megolm.v1.aes-sha2"
             rotation_period_msgs := none } }] }

/-- `CreateNewEncryptedRoom`: build the initial body, then apply each
provided option in order. -/
def CreateNewEncryptedRoom (testName : String)
    (options : List EncRoomOption) : CreateRoomBody :=
  options.foldl applyOption (initialReqBody testName)

/-- The invariant C9 is about: the body's initial_state starts with an
m.room.encryption event with empty state key and megolm algorithm. -/
def hasEncryptionEvent (b : CreateRoomBody) : Prop :=
  ∃ ev rest, b.initial_state = ev :: rest ∧
    ev.eventType = "m.room.encryption" ∧ ev.state_key = "" ∧
    ev.content.algorithm = "m.megolm.v1.aes-sha2"

theorem applyOption_preserves_encryption (b : CreateRoomBody)
    (o : EncRoomOption) (h : hasEncryptionEvent b) :
    hasEncryptionEvent (applyOption b o) := by
  obtain ⟨ev, rest, hb, h1, h2, h3⟩ := h
  cases o with
  | presetPrivateChat => exact ⟨ev, rest, hb, h1, h2, h3⟩
  | presetTrustedPrivateChat => exact ⟨ev, rest, hb, h1, h2, h3⟩
  | presetPublicChat => exact ⟨ev, rest, hb, h1, h2, h3⟩
  | invite users => exact ⟨ev, rest, hb, h1, h2, h3⟩
  | rotationPeriodMsgs n =>
      refine ⟨{ ev with content :=
        { ev.content with rotation_period_msgs := some n } }, rest, ?_, h1, h2, h3⟩
      simp [applyOption, hb]

theorem foldl_preserves_encryption (options : List EncRoomOption) :
    ∀ b : CreateRoomBody, hasEncryptionEvent b →
      hasEncryptionEvent (options.foldl applyOption b) := by
  induction options with
  | nil => intro b h; simpa
  | cons o os ih =>
      intro b h
      exact ih (applyOption b o) (applyOption_preserves_encryption b o h)

/-- C9: for every test name and every combination of the provided options,
the body produced by `CreateNewEncryptedRoom` contains an initial_state
event of type m.room.encryption with empty state_key whose content has
algorithm m.megolm.v1.aes-sha2 — no option removes it. -/
theorem create_room_always_encrypted (testName : String)
    (options : List EncRoomOption) :
    hasEncryptionEvent (CreateNewEncryptedRoom testName options) :=
  foldl_preserves_encryption options (initialReqBody testName)
    ⟨_, [], rfl, rfl, rfl, rfl⟩

/-! ## mautrix-go client Close / ForceClose (mautrixgo package)

The only effect of `Close` is `c.cryptoHelper.Close()`; `ForceClose` simply
calls `Close`.  Effects are traced; the crypto helper is identified by an
instance id. -/

structure MautrixClient where
  cryptoHelper : Nat
deriving DecidableEq, Repr

inductive ClientEffect
  | closeCryptoHelper (helper : Nat)
deriving DecidableEq, Repr

def MautrixClient.Close (c : MautrixClient) : List ClientEffect :=
  [ClientEffect.closeCryptoHelper c.cryptoHelper]

def MautrixClient.ForceClose (c : MautrixClient) : List ClientEffect :=
  c.Close

/-- C10: for every mautrix-go client instance, ForceClose performs exactly
the same effects as Close, and those effects are precisely closing the
client's crypto helper and nothing else. -/
theorem mautrix_force_close_eq_close (c : MautrixClient) :
    c.ForceClose = c.Close ∧
    c.Close = [ClientEffect.closeCryptoHelper c.cryptoHelper] :=
  ⟨rfl, rfl⟩
